import Mathlib

/-!
Verification of the data-loading and aggregation pipeline of the
`dashboard_acr` repository (files `app.py` and `cr.py`).

The CSV/pandas layer is shallowly embedded.  A pandas `DataFrame` is a
column-major table (`Tabla`) of cells; the Dash callback operates on the
record view (`Registro`, `Frame`) that `to_dict("records")` exposes.
Pandas primitives used by the code are embedded with their documented
semantics:

* `groupby` (default `sort=True`) enumerates groups in ascending key
  order;
* `sort_values(ascending=False)` computes an ascending argsort and then
  reverses it (see `pandas.core.sorting.nargsort`); the argsort is
  modelled as stable, which is exact for the small inputs considered
  here;
* `pd.to_numeric(errors='coerce')` is modelled on integer literals
  (fractional literals are outside the scope of the claims considered);
* `pd.to_datetime` string parsing is outside the scope of the claims:
  already-parsed date cells are kept and other cells coerce to `NaT`
  (`Cell.nan`); the only date columns reached by the claims are
  synthesised `date_range` columns, which consist of date cells;
* assigning a 6-element name list to a frame with more than 6 columns
  raises a `ValueError` (length mismatch), modelled as `Option.none`.

Dates are represented as the number of days after 2024-01-01.
-/

/-- A single cell of a pandas DataFrame as it occurs in this pipeline. -/
inductive Cell where
  | str (s : String)
  | num (n : Int)
  | fecha (d : Nat)
  | nan
  deriving DecidableEq, Repr

/-- Keyword set for the date column (`app.py` line 41). -/
def palabrasFecha : List String := ["fecha", "date", "time"]

/-- Keyword set for the equipment column (`app.py` line 45). -/
def palabrasEquipo : List String := ["equipo", "equipment", "machine", "maquina"]

/-- Keyword set for the category column (`app.py` line 49). -/
def palabrasCategoria : List String := ["categoria", "category", "tipo", "type", "class"]

/-- Keyword set for the cause column (`app.py` line 53). -/
def palabrasCausa : List String := ["causa", "cause", "reason", "razon"]

/-- Keyword set for the frequency column (`app.py` line 57). -/
def palabrasFrecuencia : List String := ["frecuencia", "frequency", "count", "cantidad"]

/-- Keyword set for the failure column (`app.py` line 61). -/
def palabrasFalla : List String := ["falla", "failure", "error", "problema", "issue"]

/-- Contiguous-substring test on character lists (Python `needle in haystack`). -/
def esSubcadena (aguja pajar : List Char) : Bool :=
  match pajar with
  | [] => aguja.isEmpty
  | _ :: resto => aguja.isPrefixOf pajar || esSubcadena aguja resto

/-- Python `aguja in pajar` on strings. -/
def contiene (pajar aguja : String) : Bool :=
  esSubcadena aguja.toList pajar.toList

/-- Python `s.lower()`: lower-case every character. -/
def minusculas (s : String) : String :=
  ⟨s.data.map Char.toLower⟩

/-- Python `s.strip()`: drop whitespace from both ends. -/
def recorta (s : String) : String :=
  ⟨((s.data.dropWhile Char.isWhitespace).reverse.dropWhile Char.isWhitespace).reverse⟩

/-- Value of a digit list read in base 10. -/
def digitosANat (l : List Char) : Nat :=
  l.foldl (fun n c => 10 * n + (c.toNat - 48)) 0

/-- Integer-literal parsing: an optional leading minus sign followed by at
least one decimal digit. -/
def analizaEntero (s : String) : Option Int :=
  match s.data with
  | [] => none
  | '-' :: resto =>
    if resto.isEmpty then none
    else if resto.all Char.isDigit then some (-(digitosANat resto : Int)) else none
  | l => if l.all Char.isDigit then some (digitosANat l : Int) else none

/-- Lexicographic strict comparison of character lists by code point, the
order Python uses on strings. -/
def ltChars (as bs : List Char) : Bool :=
  match as, bs with
  | _, [] => false
  | [], _ :: _ => true
  | a :: as, b :: bs => if a < b then true else if b < a then false else ltChars as bs

/-- Python `a < b` on strings. -/
def strLt (a b : String) : Bool :=
  ltChars a.toList b.toList

/-- Python `a <= b` on strings. -/
def strLe (a b : String) : Bool :=
  !(ltChars b.toList a.toList)

/-- The target canonical column a source column name is mapped to, if any:
the `if`/`elif` chain of `app.py` lines 37-62 applied to
`col.lower().strip()`. -/
def objetivoDe (col : String) : Option String :=
  let l := recorta (minusculas col)
  if palabrasFecha.any (fun p => contiene l p) then some "Fecha"
  else if palabrasEquipo.any (fun p => contiene l p) then some "Equipo"
  else if palabrasCategoria.any (fun p => contiene l p) then some "Categoria"
  else if palabrasCausa.any (fun p => contiene l p) then some "Causa"
  else if palabrasFrecuencia.any (fun p => contiene l p) then some "Frecuencia"
  else if palabrasFalla.any (fun p => contiene l p) then some "Falla"
  else none

/-- Python dict assignment `m[k] = v`: overwrite the entry if the key is
present, append it otherwise. -/
def insertaMapa (m : List (String × String)) (k v : String) : List (String × String) :=
  if m.any (fun p => p.1 == k) then m.map (fun p => if p.1 == k then (k, v) else p)
  else m ++ [(k, v)]

/-- One step of the column-mapping loop of `app.py` lines 37-62: a match
overwrites the dict entry of the matched target. -/
def pasoMapeo (m : List (String × String)) (col : String) : List (String × String) :=
  match objetivoDe col with
  | some t => insertaMapa m t col
  | none => m

/-- The dict `columnas_mapeadas` built by the loop of `app.py` lines 37-62,
keyed by canonical target name, valued by source column name. -/
def mapearColumnas (cols : List String) : List (String × String) :=
  cols.foldl pasoMapeo []

/-- Python dict lookup `m.get(k)`. -/
def buscaMapa (m : List (String × String)) (k : String) : Option String :=
  (m.find? (fun p => p.1 == k)).map Prod.snd

/-- New name of column `c` under `df.rename(columns={v: k for k, v in m.items()})`
(`app.py` line 68). -/
def renombrar (m : List (String × String)) (c : String) : String :=
  match m.find? (fun p => p.2 == c) with
  | some p => p.1
  | none => c

/-- The list `columnas_necesarias` / `nuevos_nombres` (`app.py` lines 73, 77). -/
def nombresCanonicos : List String := ["Fecha", "Equipo", "Categoria", "Causa", "Frecuencia", "Falla"]

/-- A pandas DataFrame: row count plus named columns in order. -/
structure Tabla where
  nFilas : Nat
  columnas : List (String × List Cell)
  deriving DecidableEq, Repr

/-- Column renaming step, `app.py` lines 67-74.  If the keyword mapping is
non-empty, rename through it.  Otherwise, with at least six columns the code
assigns the six canonical names positionally; that assignment raises a
`ValueError` (modelled `none`) when the table has more than six columns,
because `nuevos_nombres[:len(df.columns)]` still has only six entries.  With
fewer than six columns nothing is renamed. -/
def pasoRenombrado (t : Tabla) : Option Tabla :=
  let m := mapearColumnas (t.columnas.map Prod.fst)
  if m.isEmpty then
    if 6 ≤ t.columnas.length then
      if t.columnas.length = 6 then
        some { t with columnas := nombresCanonicos.zip (t.columnas.map Prod.snd) }
      else none
    else some t
  else some { t with columnas := t.columnas.map (fun p => (renombrar m p.1, p.2)) }

/-- Default column contents for a missing canonical column
(`app.py` lines 80-85). -/
def colPorDefecto (nombre : String) (n : Nat) : List Cell :=
  if nombre == "Fecha" then (List.range n).map Cell.fecha
  else if nombre == "Frecuencia" then List.replicate n (Cell.num 1)
  else List.replicate n (Cell.str ("Valor_" ++ nombre))

/-- One iteration of the missing-column loop (`app.py` lines 78-85). -/
def agregaFaltante (t : Tabla) (nombre : String) : Tabla :=
  if (t.columnas.map Prod.fst).contains nombre then t
  else { t with columnas := t.columnas ++ [(nombre, colPorDefecto nombre t.nFilas)] }

/-- Missing-column synthesis step (`app.py` lines 77-85). -/
def pasoDefaults (t : Tabla) : Tabla :=
  nombresCanonicos.foldl agregaFaltante t

/-- Model of `pd.to_numeric(cell, errors='coerce')` on a single cell,
restricted to integer literals; raw CSV cells are strings, numbers or
missing, never dates. -/
def toNumeric : Cell → Option Int
  | Cell.str s => analizaEntero s
  | Cell.num n => some n
  | Cell.fecha _ => none
  | Cell.nan => none

/-- Frequency coercion of one cell:
`pd.to_numeric(x, errors='coerce').fillna(1)` (`app.py` line 93). -/
def coercionFrecuencia (c : Cell) : Int :=
  match toNumeric c with
  | some n => n
  | none => 1

/-- Model of `pd.to_datetime(cell, errors='coerce')` on one cell: parsed
dates are kept, anything else coerces to `NaT`. -/
def toDatetime : Cell → Cell
  | Cell.fecha d => Cell.fecha d
  | _ => Cell.nan

/-- Coercion step, `app.py` lines 88-93: parse the `Fecha` column to dates
and the `Frecuencia` column to numbers with default 1. -/
def pasoCoercion (t : Tabla) : Tabla :=
  { t with columnas := t.columnas.map (fun p =>
      if p.1 == "Fecha" then (p.1, p.2.map toDatetime)
      else if p.1 == "Frecuencia" then (p.1, p.2.map (fun c => Cell.num (coercionFrecuencia c)))
      else p) }

/-- One cell of `df.fillna("Sin datos")` (`app.py` line 96). -/
def rellenaNulo (c : Cell) : Cell :=
  match c with
  | Cell.nan => Cell.str "Sin datos"
  | c => c

/-- Null-fill step, `app.py` line 96. -/
def pasoFillna (t : Tabla) : Tabla :=
  { t with columnas := t.columnas.map (fun p => (p.1, p.2.map rellenaNulo)) }

/-- The body of `cargar_datos` after a successful file read (`app.py`
lines 32-99); `none` models an uncaught exception inside the body. -/
def procesarTabla (t : Tabla) : Option Tabla :=
  (pasoRenombrado t).map (fun t1 => pasoFillna (pasoCoercion (pasoDefaults t1)))

/-- The five-cause cycle of the example dataset (`app.py` line 114). -/
def cicloCausas : List String :=
  ["Desgaste", "Vibración", "Sobrecalentamiento", "Desalineación", "Fatiga"]

/-- The ten-element frequency pattern of the example dataset
(`app.py` line 115). -/
def patronFrecuencias : List Int := [5, 3, 2, 4, 1, 6, 3, 2, 4, 1]

/-- The built-in example dataset `crear_datos_ejemplo`
(`app.py` lines 108-117). -/
def crear_datos_ejemplo : Tabla :=
  { nFilas := 30,
    columnas := [
      ("Fecha", (List.range 30).map Cell.fecha),
      ("Equipo", List.replicate 10 (Cell.str "Bomba Principal") ++
                 List.replicate 10 (Cell.str "Compresor A") ++
                 List.replicate 10 (Cell.str "Motor B")),
      ("Categoria", List.replicate 10 (Cell.str "Causa Física") ++
                    List.replicate 10 (Cell.str "Causa Técnica") ++
                    List.replicate 10 (Cell.str "Causa Operativa")),
      ("Causa", List.flatten (List.replicate 6 (cicloCausas.map Cell.str))),
      ("Frecuencia", List.flatten (List.replicate 3 (patronFrecuencias.map Cell.num))),
      ("Falla", (List.range 30).map (fun i => Cell.str ("Falla crítica " ++ toString (i + 1)))) ] }

/-- The loader `cargar_datos` (`app.py` lines 9-106): `none` input models a
missing or unparsable file; an exception while processing the table is
caught by the outer handler, which substitutes the example dataset. -/
def cargar_datos (entrada : Option Tabla) : Tabla :=
  match entrada with
  | none => crear_datos_ejemplo
  | some t =>
    match procesarTabla t with
    | some t1 => t1
    | none => crear_datos_ejemplo

/-- Contents of the column named `nombre` (empty when absent). -/
def columna (t : Tabla) (nombre : String) : List Cell :=
  match t.columnas.find? (fun p => p.1 == nombre) with
  | some p => p.2
  | none => []

/-- One canonical record, the row view used by the Dash callback and by
`to_dict("records")`.  `severidad` is meaningful only when the surrounding
frame has a `Severidad` column. -/
structure Registro where
  fecha : Option Nat
  equipo : String
  categoria : String
  causa : String
  frecuencia : Int
  falla : String
  severidad : String
  deriving DecidableEq, Repr

/-- The loaded dataset as seen by the callback: its rows plus whether the
frame has a `Severidad` column (a frame-level property in pandas). -/
structure Frame where
  rows : List Registro
  hasSeveridad : Bool
  deriving DecidableEq, Repr

/-- Python truthiness of a Dash dropdown value (`if equipo_seleccionado:`):
`None` and the empty string are falsy. -/
def truthy : Option String → Bool
  | none => false
  | some s => !(s.data.isEmpty)

/-- The two sequential boolean-mask filters of `actualizar_dashboard`
(`app.py` lines 222-226, `cr.py` lines 102-106). -/
def aplicarFiltros (rows : List Registro) (e c : Option String) : List Registro :=
  let r1 := if truthy e then rows.filter (fun r => r.equipo == e.getD "") else rows
  if truthy c then r1.filter (fun r => r.categoria == c.getD "") else r1

/-- Modelled from the spec: the filter predicate as the claim states it,
with `unset` meaning the absence of a selection. -/
def predicadoSpec (e c : Option String) (r : Registro) : Bool :=
  (e == none || e == some r.equipo) && (c == none || c == some r.categoria)

/-- Insertion into an ascending list of strings (ordering used by
`groupby(sort=True)`). -/
def insStr (x : String) : List String → List String
  | [] => [x]
  | y :: ys => if strLe x y then x :: y :: ys else y :: insStr x ys

/-- Ascending sort of the group keys, as `groupby(sort=True)` enumerates
them. -/
def ordenaStr : List String → List String
  | [] => []
  | x :: xs => insStr x (ordenaStr xs)

/-- Stable insertion by ascending frequency. -/
def insFrec (x : String × Int) : List (String × Int) → List (String × Int)
  | [] => [x]
  | y :: ys => if x.2 ≤ y.2 then x :: y :: ys else y :: insFrec x ys

/-- Stable ascending sort by frequency: the argsort inside
`sort_values`. -/
def ordenaFrecAsc : List (String × Int) → List (String × Int)
  | [] => []
  | x :: xs => insFrec x (ordenaFrecAsc xs)

/-- Total frequency of a cause over a record list
(`groupby("Causa")["Frecuencia"].sum()` for one group). -/
def sumFrecuencia (rows : List Registro) (c : String) : Int :=
  ((rows.filter (fun r => r.causa == c)).map Registro.frecuencia).sum

/-- The distinct causes occurring in a record list. -/
def causasUnicas (rows : List Registro) : List String :=
  (rows.map Registro.causa).dedup

/-- Result of `dff.groupby("Causa")["Frecuencia"].sum().reset_index()`:
one entry per distinct cause, in ascending cause order. -/
def groupbyCausaSum (rows : List Registro) : List (String × Int) :=
  (ordenaStr (causasUnicas rows)).map (fun c => (c, sumFrecuencia rows c))

/-- The Pareto series (`app.py` line 237, `cr.py` line 109): group by
cause, sum frequencies, then `sort_values(by="Frecuencia", ascending=False)`
which reverses the stable ascending argsort. -/
def pareto (rows : List Registro) : List (String × Int) :=
  (ordenaFrecAsc (groupbyCausaSum rows)).reverse

/-- The distinct categories occurring in a record list. -/
def categoriasUnicas (rows : List Registro) : List String :=
  (rows.map Registro.categoria).dedup

/-- The category-distribution series
(`dff.groupby("Categoria")["Falla"].count()`, `app.py` line 245): group
size per category, categories in ascending order. -/
def categoriaCount (rows : List Registro) : List (String × Nat) :=
  (ordenaStr (categoriasUnicas rows)).map
    (fun c => (c, (rows.filter (fun r => r.categoria == c)).length))

/-- Lexicographic insertion of a (category, severity) pair. -/
def insPar (x : String × String) : List (String × String) → List (String × String)
  | [] => [x]
  | y :: ys =>
    if strLt x.1 y.1 || (x.1 == y.1 && strLe x.2 y.2) then x :: y :: ys else y :: insPar x ys

/-- Lexicographic sort of (category, severity) pairs, the order in which
a two-key `groupby` enumerates its groups. -/
def ordenaPar : List (String × String) → List (String × String)
  | [] => []
  | x :: xs => insPar x (ordenaPar xs)

/-- The severity series
(`dff.groupby(["Categoria", "Severidad"]).size()`, `app.py` line 254). -/
def severidadBreakdown (rows : List Registro) : List (String × String × Nat) :=
  (ordenaPar ((rows.map (fun r => (r.categoria, r.severidad))).dedup)).map
    (fun p => (p.1, p.2,
      (rows.filter (fun r => r.categoria == p.1 && r.severidad == p.2)).length))

/-- A figure handed to the presentation layer, identified by its data
series; `sinDatos` is the placeholder titled "No hay datos para los
filtros seleccionados" and `sinSeveridad` the one titled "Datos de
severidad no disponibles". -/
inductive Figura where
  | sinDatos
  | sinSeveridad
  | paretoFig (datos : List (String × Int))
  | tortaFig (datos : List (String × Nat))
  | severidadFig (datos : List (String × String × Nat))
  deriving DecidableEq, Repr

/-- The four outputs of the `app.py` callback. -/
structure Salida where
  figPareto : Figura
  figTorta : Figura
  figSeveridad : Figura
  tabla : List Registro
  deriving DecidableEq, Repr

/-- The callback `actualizar_dashboard` of `app.py` (lines 219-263).  The
global dataset is threaded explicitly: the first component of the result
is the dataset after the call (the code works on `df.copy()`, so it is
returned unchanged).  The severity check `"Severidad" in dff.columns`
(line 253) reads the filtered frame, whose column set equals that of the
original frame because row filtering never removes columns. -/
def actualizar_dashboard (df : Frame) (e c : Option String) : Frame × Salida :=
  let dff : Frame := { rows := aplicarFiltros df.rows e c, hasSeveridad := df.hasSeveridad }
  if dff.rows.isEmpty then
    (df, { figPareto := Figura.sinDatos, figTorta := Figura.sinDatos,
           figSeveridad := Figura.sinDatos, tabla := [] })
  else
    (df, { figPareto := Figura.paretoFig (pareto dff.rows),
           figTorta := Figura.tortaFig (categoriaCount dff.rows),
           figSeveridad :=
             if dff.hasSeveridad then Figura.severidadFig (severidadBreakdown dff.rows)
             else Figura.sinSeveridad,
           tabla := dff.rows })

/-- The callback `actualizar_dashboard` of `cr.py` (lines 99-119): same
filtering, Pareto and category outputs, but no empty-set check and no
severity figure. -/
def actualizar_dashboard_cr (df : Frame) (e c : Option String) :
    Frame × (List (String × Int) × List (String × Nat) × List Registro) :=
  let dff := aplicarFiltros df.rows e c
  (df, (pareto dff, categoriaCount dff, dff))

/-- Whether a figure is a severity breakdown series. -/
def esBreakdown : Figura → Bool
  | Figura.severidadFig _ => true
  | _ => false

/-- A sample canonical record used by concrete counterexamples. -/
def regX : Registro :=
  { fecha := none, equipo := "M1", categoria := "Causa Física", causa := "Desgaste",
    frecuencia := 2, falla := "f", severidad := "alta" }

/-- A one-record frame whose dataset has a severity column. -/
def frameSev : Frame := { rows := [regX], hasSeveridad := true }

/-- A one-record frame whose dataset has no severity column. -/
def frameNoSev : Frame := { rows := [regX], hasSeveridad := false }

/-- Modelled from the spec: the frequency pattern claimed for the example
dataset, the 5-element pattern repeated. -/
def frecuenciasSegunClaim : List Int := List.flatten (List.replicate 6 [5, 3, 2, 4, 1])

/-- A seven-column table none of whose column names matches any keyword
set. -/
def tabla7 : Tabla :=
  { nFilas := 0,
    columnas := [("a", []), ("b", []), ("c", []), ("d", []), ("e", []), ("f", []), ("g", [])] }

/-- A six-column table none of whose column names matches any keyword
set. -/
def tabla6 : Tabla :=
  { nFilas := 0,
    columnas := [("a", []), ("b", []), ("c", []), ("d", []), ("e", []), ("f", [])] }


theorem insFrec_perm (x : String × Int) (l : List (String × Int)) :
    List.Perm (insFrec x l) (x :: l) := by
  induction l with
  | nil => simp [insFrec]
  | cons y ys ih =>
    simp only [insFrec]
    split
    · exact List.Perm.refl _
    · exact (ih.cons y).trans (List.Perm.swap x y ys)

theorem ordenaFrecAsc_perm (l : List (String × Int)) :
    List.Perm (ordenaFrecAsc l) l := by
  induction l with
  | nil => simp [ordenaFrecAsc]
  | cons x xs ih => exact (insFrec_perm x (ordenaFrecAsc xs)).trans (ih.cons x)

theorem insStr_perm (x : String) (l : List String) :
    List.Perm (insStr x l) (x :: l) := by
  induction l with
  | nil => simp [insStr]
  | cons y ys ih =>
    simp only [insStr]
    split
    · exact List.Perm.refl _
    · exact (ih.cons y).trans (List.Perm.swap x y ys)

theorem ordenaStr_perm (l : List String) :
    List.Perm (ordenaStr l) l := by
  induction l with
  | nil => simp [ordenaStr]
  | cons x xs ih => exact (insStr_perm x (ordenaStr xs)).trans (ih.cons x)

theorem ltChars_lex (as bs : List Char) :
    ltChars as bs = true ↔ List.Lex (fun x y => x < y) as bs := by
  induction as generalizing bs with
  | nil =>
    cases bs with
    | nil =>
      constructor
      · intro h; exact absurd h (by simp [ltChars])
      · intro h; cases h
    | cons b bs =>
      constructor
      · intro _; exact List.Lex.nil
      · intro _; rfl
  | cons a as ih =>
    cases bs with
    | nil =>
      constructor
      · intro h; exact absurd h (by simp [ltChars])
      · intro h; cases h
    | cons b bs =>
      by_cases hab : a < b
      · constructor
        · intro _; exact List.Lex.rel hab
        · intro _; simp [ltChars, hab]
      · by_cases hba : b < a
        · constructor
          · intro h; simp [ltChars, hab, hba] at h
          · intro h
            cases h with
            | rel h' => exact absurd h' hab
            | cons h' => exact absurd hba (lt_irrefl a)
        · have heq : a = b := le_antisymm (le_of_not_lt hba) (le_of_not_lt hab)
          subst heq
          constructor
          · intro h
            have h' : ltChars as bs = true := by simpa [ltChars, lt_irrefl] using h
            exact List.Lex.cons ((ih bs).mp h')
          · intro h
            have h' : List.Lex (fun x y => x < y) as bs := by
              cases h with
              | rel h'' => exact absurd h'' (lt_irrefl a)
              | cons h'' => exact h''
            simpa [ltChars, lt_irrefl] using (ih bs).mpr h'

theorem strLt_iff (a b : String) : strLt a b = true ↔ a < b := by
  rw [String.lt_iff_toList_lt]
  exact ltChars_lex _ _

theorem strLe_iff (a b : String) : strLe a b = true ↔ a ≤ b := by
  have h1 : strLe a b = true ↔ ¬(strLt b a = true) := by
    unfold strLe strLt
    cases ltChars b.toList a.toList <;> simp
  rw [h1, strLt_iff]
  exact not_lt

theorem le_of_strLe {a b : String} (h : strLe a b = true) : a ≤ b :=
  (strLe_iff a b).mp h

theorem lt_of_strLe_false {a b : String} (h : ¬ strLe a b = true) : b < a := by
  rw [strLe_iff] at h
  exact lt_of_not_le h

theorem pairwise_insStr (x : String) (l : List String)
    (hl : l.Pairwise (fun a b => a < b)) (hx : ∀ y ∈ l, x ≠ y) :
    (insStr x l).Pairwise (fun a b => a < b) := by
  induction l with
  | nil => simp [insStr]
  | cons y ys ih =>
    rcases List.pairwise_cons.mp hl with ⟨hy, hys⟩
    simp only [insStr]
    split
    · rename_i hle
      refine List.pairwise_cons.mpr ⟨?_, hl⟩
      intro z hz
      rcases List.mem_cons.mp hz with rfl | hzys
      · exact lt_of_le_of_ne (le_of_strLe hle) (hx z (List.mem_cons_self _ _))
      · exact lt_of_le_of_lt (le_of_strLe hle) (hy z hzys)
    · rename_i hnle
      have hyx : y < x := lt_of_strLe_false hnle
      refine List.pairwise_cons.mpr ⟨?_, ih hys (fun z hz => hx z (List.mem_cons_of_mem _ hz))⟩
      intro z hz
      have hz' : z ∈ x :: ys := (insStr_perm x ys).mem_iff.mp hz
      rcases List.mem_cons.mp hz' with rfl | hzys
      · exact hyx
      · exact hy z hzys

theorem pairwise_ordenaStr (l : List String) (hl : l.Nodup) :
    (ordenaStr l).Pairwise (fun a b => a < b) := by
  induction l with
  | nil => simp [ordenaStr]
  | cons x xs ih =>
    rcases List.pairwise_cons.mp hl with ⟨hx, hxs⟩
    simp only [ordenaStr]
    exact pairwise_insStr x (ordenaStr xs) (ih hxs)
      (fun y hy => hx y ((ordenaStr_perm xs).mem_iff.mp hy))

theorem pairwise_insFrec (x : String × Int) (l : List (String × Int))
    (hl : l.Pairwise (fun a b => a.2 < b.2 ∨ (a.2 = b.2 ∧ a.1 < b.1)))
    (hx : ∀ y ∈ l, x.1 < y.1) :
    (insFrec x l).Pairwise (fun a b => a.2 < b.2 ∨ (a.2 = b.2 ∧ a.1 < b.1)) := by
  induction l with
  | nil => simp [insFrec]
  | cons y ys ih =>
    rcases List.pairwise_cons.mp hl with ⟨hy, hys⟩
    simp only [insFrec]
    split
    · rename_i hle
      refine List.pairwise_cons.mpr ⟨?_, hl⟩
      intro z hz
      have hlez : x.2 ≤ z.2 := by
        rcases List.mem_cons.mp hz with rfl | hzys
        · exact hle
        · rcases hy z hzys with h | ⟨h, _⟩
          · exact hle.trans h.le
          · exact h ▸ hle
      rcases lt_or_eq_of_le hlez with h | h
      · exact Or.inl h
      · exact Or.inr ⟨h, hx z (by
          rcases List.mem_cons.mp hz with rfl | hzys
          · exact List.mem_cons_self _ _
          · exact List.mem_cons_of_mem _ hzys)⟩
    · rename_i hnle
      have hyx : y.2 < x.2 := lt_of_not_le hnle
      refine List.pairwise_cons.mpr
        ⟨?_, ih hys (fun z hz => hx z (List.mem_cons_of_mem _ hz))⟩
      intro z hz
      have hz' : z ∈ x :: ys := (insFrec_perm x ys).mem_iff.mp hz
      rcases List.mem_cons.mp hz' with rfl | hzys
      · exact Or.inl hyx
      · exact hy z hzys

theorem pairwise_ordenaFrecAsc (l : List (String × Int))
    (hl : l.Pairwise (fun a b => a.1 < b.1)) :
    (ordenaFrecAsc l).Pairwise (fun a b => a.2 < b.2 ∨ (a.2 = b.2 ∧ a.1 < b.1)) := by
  induction l with
  | nil => simp [ordenaFrecAsc]
  | cons x xs ih =>
    rcases List.pairwise_cons.mp hl with ⟨hx, hxs⟩
    simp only [ordenaFrecAsc]
    exact pairwise_insFrec x (ordenaFrecAsc xs) (ih hxs)
      (fun y hy => hx y ((ordenaFrecAsc_perm xs).mem_iff.mp hy))

theorem groupbyCausaSum_pairwise (rows : List Registro) :
    (groupbyCausaSum rows).Pairwise (fun a b => a.1 < b.1) := by
  unfold groupbyCausaSum
  refine List.pairwise_map.mpr ?_
  exact (pairwise_ordenaStr (causasUnicas rows) (List.nodup_dedup _)).imp (fun h => h)

/-- Claim C1 (corrected).  The aggregation's filtered record set equals the
canonical records filtered by the conjunction of the two per-field
predicates, where a filter value counts as unset when it is absent OR the
empty string (Python truthiness of the dropdown value); set filters test
string equality, and records pass through unchanged. -/
theorem filtrado_conjuncion (rows : List Registro) (e c : Option String) :
    aplicarFiltros rows e c = rows.filter (fun r =>
      (!truthy e || r.equipo == e.getD "") && (!truthy c || r.categoria == c.getD "")) := by
  unfold aplicarFiltros
  cases he : truthy e <;> cases hc : truthy c <;>
    simp [List.filter_filter, Bool.and_comm]

/-- Claim C1 counterexample.  With the equipment filter set to the empty
string, the code keeps a record whose equipment differs from the selected
value, while the claim's predicate (equipment filter unset OR equality)
excludes it: the two sets differ. -/
theorem filtrado_cex :
    aplicarFiltros [regX] (some "") none = [regX] ∧
    List.filter (predicadoSpec (some "") none) [regX] = [] ∧
    aplicarFiltros [regX] (some "") none ≠
      List.filter (predicadoSpec (some "") none) [regX] := by
  decide

/-- Claim C3 (corrected).  Pareto output: one entry per distinct cause of
the filtered set carrying that cause's summed frequency, ordered
descending by summed frequency; for equal sums the cause that is LATER in
alphabetical order comes first (the `groupby` sorts causes ascending and
`sort_values(ascending=False)` reverses a stable ascending argsort), not
the cause seen first in the filtered set. -/
theorem pareto_caracterizacion (rows : List Registro) :
    List.Perm (pareto rows)
      ((causasUnicas rows).map (fun c => (c, sumFrecuencia rows c))) ∧
    (pareto rows).Pairwise
      (fun x y => y.2 < x.2 ∨ (y.2 = x.2 ∧ y.1 < x.1)) := by
  constructor
  · have h1 : List.Perm (pareto rows) (groupbyCausaSum rows) :=
      (List.reverse_perm _).trans (ordenaFrecAsc_perm _)
    exact h1.trans (List.Perm.map _ (ordenaStr_perm _))
  · unfold pareto
    refine List.pairwise_reverse.mpr ?_
    exact (pairwise_ordenaFrecAsc _ (groupbyCausaSum_pairwise rows)).imp (fun h => h)

/-- Claim C3 counterexample.  Two causes with equal summed frequency where
"a" is first-seen: the Pareto output lists "b" before "a", violating the
claimed first-seen tie-breaking. -/
theorem pareto_cex :
    ([{ regX with causa := "a", frecuencia := 5 },
      { regX with causa := "b", frecuencia := 5 }] : List Registro).map Registro.causa
        = ["a", "b"] ∧
    sumFrecuencia [{ regX with causa := "a", frecuencia := 5 },
      { regX with causa := "b", frecuencia := 5 }] "a" =
      sumFrecuencia [{ regX with causa := "a", frecuencia := 5 },
        { regX with causa := "b", frecuencia := 5 }] "b" ∧
    (pareto [{ regX with causa := "a", frecuencia := 5 },
      { regX with causa := "b", frecuencia := 5 }]).map Prod.fst = ["b", "a"] := by
  decide

/-- Claim C9 (confirmed).  Aggregation is a pure function of the dataset
and the filter state: the dataset coming out of a callback invocation is
the dataset that went in (the code operates on `df.copy()`), in both
`app.py` and `cr.py`, and recomputing after an earlier invocation gives
exactly what computing directly on the original dataset gives. -/
theorem agregacion_pura (df : Frame) (e1 c1 e2 c2 : Option String) :
    (actualizar_dashboard df e1 c1).1 = df ∧
    actualizar_dashboard ((actualizar_dashboard df e1 c1).1) e2 c2 =
      actualizar_dashboard df e2 c2 ∧
    (actualizar_dashboard_cr df e1 c1).1 = df := by
  have h1 : (actualizar_dashboard df e1 c1).1 = df := by
    cases h : (aplicarFiltros df.rows e1 c1).isEmpty <;>
      simp [actualizar_dashboard, h]
  exact ⟨h1, by rw [h1], rfl⟩

/-- Claim C10 (confirmed).  The record list handed to the table is a
sublist of the canonical record set: filtering removes rows but never
reorders them, in both the `app.py` and the `cr.py` callback. -/
theorem tabla_subsecuencia (df : Frame) (e c : Option String) :
    List.Sublist ((actualizar_dashboard df e c).2.tabla) df.rows ∧
    List.Sublist ((actualizar_dashboard_cr df e c).2.2.2) df.rows := by
  have hf : List.Sublist (aplicarFiltros df.rows e c) df.rows := by
    unfold aplicarFiltros
    cases truthy e <;> cases truthy c <;> simp
  refine ⟨?_, hf⟩
  cases h : (aplicarFiltros df.rows e c).isEmpty with
  | true => simp [actualizar_dashboard, h, List.nil_sublist]
  | false =>
    simp only [actualizar_dashboard, h]
    exact hf

/-- Claim C5 (corrected).  The severity output is determined as follows:
when the filter matches zero rows it is the uniform no-data placeholder
regardless of severity presence; otherwise it is the severity breakdown
exactly when the dataset has a severity column (equivalently, when the
unfiltered canonical set carries severity, since row filtering preserves
the column set) and the "severity unavailable" marker otherwise. -/
theorem severidad_caracterizacion (df : Frame) (e c : Option String) :
    (actualizar_dashboard df e c).2.figSeveridad =
      (if (aplicarFiltros df.rows e c).isEmpty then Figura.sinDatos
       else if df.hasSeveridad then
         Figura.severidadFig (severidadBreakdown (aplicarFiltros df.rows e c))
       else Figura.sinSeveridad) := by
  cases h : (aplicarFiltros df.rows e c).isEmpty <;>
    cases hs : df.hasSeveridad <;>
      simp [actualizar_dashboard, h, hs]

/-- Claim C5 counterexample.  A dataset with severity, filtered to zero
rows: the severity output is the no-data placeholder, not a (possibly
empty) breakdown list, refuting the claim that severity presence forces a
breakdown for every filter state. -/
theorem severidad_cex :
    frameSev.hasSeveridad = true ∧
    (actualizar_dashboard frameSev (some "otro") none).2.figSeveridad = Figura.sinDatos ∧
    esBreakdown (actualizar_dashboard frameSev (some "otro") none).2.figSeveridad = false := by
  decide

/-- Claim C6 (corrected).  When the filter matches zero canonical records
the callback returns, without error (the embedded function is total), the
explicit no-data placeholder for all three figures and an empty record
list; the severity output is the same uniform no-data placeholder
irrespective of the dataset's severity presence, not the severity
marker. -/
theorem salida_vacia (df : Frame) (e c : Option String)
    (h : aplicarFiltros df.rows e c = []) :
    actualizar_dashboard df e c =
      (df, { figPareto := Figura.sinDatos, figTorta := Figura.sinDatos,
             figSeveridad := Figura.sinDatos, tabla := [] }) := by
  simp [actualizar_dashboard, h]

/-- Claim C6 witness: the empty-filter contract evaluated on a concrete
dataset and zero-matching filter. -/
theorem salida_vacia_witness :
    actualizar_dashboard frameNoSev (some "nm") none =
      (frameNoSev, { figPareto := Figura.sinDatos, figTorta := Figura.sinDatos,
                     figSeveridad := Figura.sinDatos, tabla := [] }) :=
  salida_vacia frameNoSev (some "nm") none (by decide)

/-- Claim C6 counterexample.  A dataset without severity, filtered to zero
rows: the severity output is the no-data placeholder, not the "severity
unavailable" marker the claim requires for a severity-free dataset. -/
theorem salida_vacia_severidad_cex :
    frameNoSev.hasSeveridad = false ∧
    (actualizar_dashboard frameNoSev (some "zz") none).2.figSeveridad = Figura.sinDatos ∧
    Figura.sinDatos ≠ Figura.sinSeveridad := by
  decide

/-- Claim C7 (corrected).  Frequency coercion replaces exactly the
unparsable cells by the default 1; every cell that parses to a number is
kept unchanged, including negative values, which are NOT replaced by the
default. -/
theorem coercion_caracterizacion (cell : Cell) :
    (toNumeric cell = none → coercionFrecuencia cell = 1) ∧
    (∀ n : Int, toNumeric cell = some n → coercionFrecuencia cell = n) := by
  cases h : toNumeric cell <;> simp [coercionFrecuencia, h]

/-- Claim C7 witness: a parsable negative literal is kept and a missing
value becomes the default 1. -/
theorem coercion_caracterizacion_witness :
    coercionFrecuencia (Cell.str "-7") = -7 ∧ coercionFrecuencia Cell.nan = 1 :=
  ⟨(coercion_caracterizacion (Cell.str "-7")).2 (-7) (by decide),
   (coercion_caracterizacion Cell.nan).1 (by decide)⟩

/-- Claim C7 counterexample.  The parsable negative value -5 is kept as
-5, not replaced by the default 1 as the claim states. -/
theorem coercion_negativo_cex :
    coercionFrecuencia (Cell.str "-5") = -5 ∧ ¬((-5 : Int) = 1) := by
  decide

theorem find_sobrescribe_otro (m : List (String × String)) (k v t : String) (ht : t ≠ k) :
    List.find? (fun p => p.1 == t) (m.map (fun p => if p.1 == k then (k, v) else p)) =
      List.find? (fun p => p.1 == t) m := by
  induction m with
  | nil => rfl
  | cons p ps ih =>
    rw [List.map_cons]
    by_cases hp : p.1 = k
    · have e1 : (if (p.1 == k) = true then ((k, v) : String × String) else p) = (k, v) := by
        simp [hp]
      rw [e1, List.find?_cons_of_neg _ (by simp [Ne.symm ht]),
        List.find?_cons_of_neg _ (by simp [hp, Ne.symm ht]), ih]
    · have e1 : (if (p.1 == k) = true then ((k, v) : String × String) else p) = p := by
        simp [hp]
      rw [e1]
      by_cases hpt : p.1 = t
      · rw [List.find?_cons_of_pos _ (by simp [hpt]),
          List.find?_cons_of_pos _ (by simp [hpt])]
      · rw [List.find?_cons_of_neg _ (by simp [hpt]),
          List.find?_cons_of_neg _ (by simp [hpt]), ih]

theorem find_sobrescribe_mismo (m : List (String × String)) (k v : String)
    (h : m.any (fun p => p.1 == k) = true) :
    List.find? (fun p => p.1 == k) (m.map (fun p => if p.1 == k then (k, v) else p)) =
      some (k, v) := by
  induction m with
  | nil => simp at h
  | cons p ps ih =>
    rw [List.map_cons]
    by_cases hp : p.1 = k
    · have e1 : (if (p.1 == k) = true then ((k, v) : String × String) else p) = (k, v) := by
        simp [hp]
      rw [e1, List.find?_cons_of_pos _ (by simp)]
    · have e1 : (if (p.1 == k) = true then ((k, v) : String × String) else p) = p := by
        simp [hp]
      have hps : ps.any (fun p => p.1 == k) = true := by
        simpa [hp] using h
      rw [e1, List.find?_cons_of_neg _ (by simp [hp]), ih hps]

theorem buscaMapa_append (m : List (String × String)) (k v t : String)
    (h : m.any (fun p => p.1 == k) = false) :
    buscaMapa (m ++ [(k, v)]) t = if t = k then some v else buscaMapa m t := by
  induction m with
  | nil =>
    simp only [buscaMapa, List.nil_append]
    by_cases ht : t = k
    · subst ht
      rw [List.find?_cons_of_pos _ (by simp)]
      simp
    · rw [List.find?_cons_of_neg _ (by simp [Ne.symm ht])]
      simp [ht]
  | cons p ps ih =>
    have hp : (p.1 == k) = false := by
      have h' := List.any_eq_false.mp h p (List.mem_cons_self _ _)
      simpa using h'
    have hps : ps.any (fun p => p.1 == k) = false := by
      refine List.any_eq_false.mpr ?_
      intro x hx
      exact List.any_eq_false.mp h x (List.mem_cons_of_mem _ hx)
    simp only [buscaMapa, List.cons_append]
    by_cases hpt : p.1 = t
    · rw [List.find?_cons_of_pos _ (by simp [hpt]),
        List.find?_cons_of_pos _ (by simp [hpt])]
      have htk : t ≠ k := by
        intro e
        rw [e] at hpt
        simp [hpt] at hp
      rw [if_neg htk]
    · rw [List.find?_cons_of_neg _ (by simp [hpt]),
        List.find?_cons_of_neg _ (by simp [hpt])]
      have h2 := ih hps
      simp only [buscaMapa] at h2
      exact h2

theorem buscaMapa_inserta (m : List (String × String)) (k v t : String) :
    buscaMapa (insertaMapa m k v) t = if t = k then some v else buscaMapa m t := by
  unfold insertaMapa
  split
  · rename_i hany
    by_cases ht : t = k
    · subst ht
      simp only [buscaMapa]
      rw [find_sobrescribe_mismo m t v hany]
      simp
    · simp only [buscaMapa]
      rw [find_sobrescribe_otro m k v t ht, if_neg ht]
  · rename_i hany
    exact buscaMapa_append m k v t (Bool.eq_false_iff.mpr hany)

theorem buscaMapa_pasoMapeo (m : List (String × String)) (col t : String) :
    buscaMapa (pasoMapeo m col) t =
      if (objetivoDe col == some t) = true then some col else buscaMapa m t := by
  unfold pasoMapeo
  cases ho : objetivoDe col with
  | none => simp
  | some tt =>
    rw [buscaMapa_inserta]
    by_cases ht : t = tt
    · subst ht; simp
    · simp [ht, Ne.symm ht]

theorem mapearColumnas_spec (cols : List String) (m : List (String × String)) (t : String) :
    buscaMapa (cols.foldl pasoMapeo m) t =
      ((cols.filter (fun c => objetivoDe c == some t)).getLast?).elim (buscaMapa m t) some := by
  induction cols generalizing m with
  | nil => simp
  | cons col cs ih =>
    rw [List.foldl_cons, ih (pasoMapeo m col), buscaMapa_pasoMapeo, List.filter_cons]
    by_cases hcol : (objetivoDe col == some t) = true
    · rw [if_pos hcol, if_pos hcol]
      cases hf : cs.filter (fun c => objetivoDe c == some t) with
      | nil =>
        rw [List.getLast?_nil, List.getLast?_singleton]
        rfl
      | cons w ws =>
        rw [List.getLast?_cons_cons]
        cases hg : (w :: ws).getLast? with
        | none => exact absurd (List.getLast?_eq_none_iff.mp hg) (by simp)
        | some v => rfl
    · rw [if_neg hcol, if_neg hcol]

/-- Claim C2 (corrected).  When several source columns match the keyword
set of the same target field, the LAST encountered (rightmost) matching
column is the one mapped to that target, because each later match
overwrites the dict entry; earlier matching columns are left with their
original names.  In general the mapped source column for any target is
the last column whose keyword match yields that target. -/
theorem mapeo_ultima_coincidencia (cols : List String) (t : String) :
    buscaMapa (mapearColumnas cols) t =
      (cols.filter (fun c => objetivoDe c == some t)).getLast? := by
  rw [mapearColumnas, mapearColumnas_spec cols [] t]
  cases (cols.filter (fun c => objetivoDe c == some t)).getLast? <;>
    simp [buscaMapa]

/-- Claim C2 counterexample.  Two columns both matching the cause keyword
set: the mapping keeps the SECOND (rightmost), not the first as the claim
states. -/
theorem mapeo_cex :
    buscaMapa (mapearColumnas ["causa x", "causa y"]) "Causa" = some "causa y" ∧
    buscaMapa (mapearColumnas ["causa x", "causa y"]) "Causa" ≠ some "causa x" := by
  decide

/-- Claim C4 counterexample.  The example dataset's frequency column is
NOT the 5-element pattern `[5,3,2,4,1]` repeated: at index 5 the actual
value is 6, while the claimed pattern has 5 there. -/
theorem datos_ejemplo_cex :
    columna (cargar_datos none) "Frecuencia" ≠ frecuenciasSegunClaim.map Cell.num ∧
    (columna (cargar_datos none) "Frecuencia").getD 5 Cell.nan = Cell.num 6 ∧
    frecuenciasSegunClaim.getD 5 0 = 5 := by
  decide

/-- Claim C4 (corrected).  On load failure the loader returns the built-in
example dataset, which has exactly 30 rows, equipment cycling Bomba
Principal ×10, Compresor A ×10, Motor B ×10, the 5-cause cycle repeating,
sequential daily dates starting 2024-01-01, and frequencies given by the
10-element pattern `[5,3,2,4,1,6,3,2,4,1]` repeated three times (not the
5-element pattern `[5,3,2,4,1]` repeated). -/
theorem datos_ejemplo_caracterizacion :
    cargar_datos none = crear_datos_ejemplo ∧
    crear_datos_ejemplo.nFilas = 30 ∧
    (columna crear_datos_ejemplo "Fecha").length = 30 ∧
    (columna crear_datos_ejemplo "Equipo").length = 30 ∧
    (columna crear_datos_ejemplo "Categoria").length = 30 ∧
    (columna crear_datos_ejemplo "Causa").length = 30 ∧
    (columna crear_datos_ejemplo "Frecuencia").length = 30 ∧
    (columna crear_datos_ejemplo "Falla").length = 30 ∧
    ((List.range 30).all (fun i =>
      ((columna crear_datos_ejemplo "Fecha").getD i Cell.nan == Cell.fecha i) &&
      ((columna crear_datos_ejemplo "Equipo").getD i Cell.nan ==
        Cell.str (if i < 10 then "Bomba Principal"
                  else if i < 20 then "Compresor A" else "Motor B")) &&
      ((columna crear_datos_ejemplo "Categoria").getD i Cell.nan ==
        Cell.str (if i < 10 then "Causa Física"
                  else if i < 20 then "Causa Técnica" else "Causa Operativa")) &&
      ((columna crear_datos_ejemplo "Causa").getD i Cell.nan ==
        Cell.str (cicloCausas.getD (i % 5) "")) &&
      ((columna crear_datos_ejemplo "Frecuencia").getD i Cell.nan ==
        Cell.num (patronFrecuencias.getD (i % 10) 0)) &&
      ((columna crear_datos_ejemplo "Falla").getD i Cell.nan ==
        Cell.str ("Falla crítica " ++ toString (i + 1))))) = true := by
  decide

theorem foldl_pasoMapeo_id (cols : List String) (h : ∀ c ∈ cols, objetivoDe c = none)
    (m : List (String × String)) : cols.foldl pasoMapeo m = m := by
  induction cols generalizing m with
  | nil => rfl
  | cons c cs ih =>
    rw [List.foldl_cons]
    have hc : pasoMapeo m c = m := by
      unfold pasoMapeo
      rw [h c (List.mem_cons_self _ _)]
    rw [hc]
    exact ih (fun x hx => h x (List.mem_cons_of_mem _ hx)) m

theorem mapearColumnas_vacio (cols : List String) (h : ∀ c ∈ cols, objetivoDe c = none) :
    mapearColumnas cols = [] :=
  foldl_pasoMapeo_id cols h []

theorem agregaFaltante_mantiene (t : Tabla) (nombre x : String)
    (h : x ∈ t.columnas.map Prod.fst) :
    x ∈ (agregaFaltante t nombre).columnas.map Prod.fst := by
  unfold agregaFaltante
  split
  · exact h
  · simp only [List.map_append]
    exact List.mem_append_left _ h

theorem agregaFaltante_agrega (t : Tabla) (nombre : String) :
    nombre ∈ (agregaFaltante t nombre).columnas.map Prod.fst := by
  unfold agregaFaltante
  split
  · rename_i hcont
    simpa using hcont
  · simp

theorem foldl_agregaFaltante_mantiene (names : List String) (t : Tabla) (x : String)
    (h : x ∈ t.columnas.map Prod.fst) :
    x ∈ ((names.foldl agregaFaltante t).columnas.map Prod.fst) := by
  induction names generalizing t with
  | nil => exact h
  | cons m ms ih =>
    rw [List.foldl_cons]
    exact ih _ (agregaFaltante_mantiene t m x h)

theorem foldl_agregaFaltante_agrega (names : List String) (t : Tabla) (n : String)
    (hn : n ∈ names) :
    n ∈ ((names.foldl agregaFaltante t).columnas.map Prod.fst) := by
  induction names generalizing t with
  | nil => cases hn
  | cons m ms ih =>
    rw [List.foldl_cons]
    rcases List.mem_cons.mp hn with rfl | hms
    · exact foldl_agregaFaltante_mantiene ms _ n (agregaFaltante_agrega t n)
    · exact ih _ hms

/-- Claim C8 (corrected).  When no source column matches any keyword set,
the positional fallback assigns the six canonical names only when the
table has EXACTLY six columns (and the load then succeeds).  With more
than six columns the positional rename raises a length-mismatch error and
the loader substitutes the example dataset, so the load does not succeed
on that table.  With fewer than six columns no renaming happens at all,
the load succeeds, and the defaulting step synthesizes all six canonical
columns. -/
theorem posicional_caracterizacion (t : Tabla)
    (h : ∀ c ∈ t.columnas.map Prod.fst, objetivoDe c = none) :
    (t.columnas.length = 6 →
      pasoRenombrado t =
        some { t with columnas := nombresCanonicos.zip (t.columnas.map Prod.snd) } ∧
      (procesarTabla t).isSome = true) ∧
    (6 < t.columnas.length → cargar_datos (some t) = crear_datos_ejemplo) ∧
    (t.columnas.length < 6 →
      pasoRenombrado t = some t ∧
      (procesarTabla t).isSome = true ∧
      ∀ nombre ∈ nombresCanonicos, nombre ∈ (pasoDefaults t).columnas.map Prod.fst) := by
  have hm : mapearColumnas (t.columnas.map Prod.fst) = [] := mapearColumnas_vacio _ h
  refine ⟨?_, ?_, ?_⟩
  · intro h6
    have hr : pasoRenombrado t =
        some { t with columnas := nombresCanonicos.zip (t.columnas.map Prod.snd) } := by
      unfold pasoRenombrado
      rw [hm]
      simp [h6]
    refine ⟨hr, ?_⟩
    unfold procesarTabla
    rw [hr]
    rfl
  · intro h7
    have hr : pasoRenombrado t = none := by
      unfold pasoRenombrado
      rw [hm]
      simp [Nat.le_of_lt h7, Nat.ne_of_gt h7]
    have hp : procesarTabla t = none := by
      unfold procesarTabla
      rw [hr]
      rfl
    simp [cargar_datos, hp]
  · intro h5
    have hr : pasoRenombrado t = some t := by
      unfold pasoRenombrado
      rw [hm]
      simp [Nat.not_le.mpr h5]
    refine ⟨hr, ?_, ?_⟩
    · unfold procesarTabla
      rw [hr]
      rfl
    · intro nombre hn
      exact foldl_agregaFaltante_agrega nombresCanonicos t nombre hn

/-- Claim C8 witness: the exact-six-column case of the positional fallback
evaluated on a concrete table. -/
theorem posicional_caracterizacion_witness :
    pasoRenombrado tabla6 =
      some { tabla6 with columnas := nombresCanonicos.zip (tabla6.columnas.map Prod.snd) } ∧
    (procesarTabla tabla6).isSome = true :=
  (posicional_caracterizacion tabla6 (by decide)).1 (by decide)

/-- Claim C8 counterexample.  A seven-column table with no keyword match:
processing raises (length mismatch) and the loader returns the example
dataset instead of succeeding on that table with the extra column
ignored. -/
theorem posicional_siete_cex :
    procesarTabla tabla7 = none ∧
    cargar_datos (some tabla7) = crear_datos_ejemplo ∧
    tabla7.columnas.length = 7 := by
  decide
